import Mathlib

/-
Verification of the guild-scoped audio playback session manager of the
discord-bot-framework repository, against its natural-language specification.

The shallow embedding below translates the relevant parts of the source:
  - apps/music_bot/cogs/music_player.py  (Song, MusicQueue, MusicPlayer)
  - apps/music_bot/main.py               (MusicBot.on_voice_state_update)
  - libs/shared_utils/config_loader.py   (BotConfig)

Conventions of the embedding:
  - All state is per guild: the Python dictionaries `queues`, `voice_clients`
    and `inactivity_timers` are dict[int, ...] keyed by guild id, and every
    operation touches only one guild's entries, so we model the slice of the
    three dictionaries belonging to a single guild (`SessionState`).
  - `discord.VoiceClient` is an external capability; we model the observable
    surface the cog uses: is_connected, the channel, play/pause/resume/stop
    and the is_playing/is_paused queries, with the semantics of discord.py
    (is_playing is false while paused; play installs a fresh source).
  - asyncio tasks created by start_inactivity_timer are modelled explicitly
    as a list of `WatchdogTask` records so that "at most one watchdog is
    pending" is a real statement and not an artefact of the model.
  - Coroutine suspension is modelled by making each completed operation a
    single atomic step; the finish callback scheduled by after_playing via
    asyncio.run_coroutine_threadsafe is delivered later as its own step
    (`Op.finishDelivered`), which is exactly the event-loop semantics.
  - External outcomes (whether a connect attempt raises, whether yt-dlp
    resolves a song, whether FFmpeg source creation raises) are inputs.
-/

namespace DiscordMusic

/-- `BotConfig` from libs/shared_utils/config_loader.py lines 13-30.
The float field command_cooldown and the two option dictionaries are elided:
no claim touches them.  Durations are in seconds. -/
structure BotConfig where
  token : String
  guild_id : Option Nat := none
  command_prefix : String := "!"
  debug : Bool := false
  database_url : Option String := none
  health_check_port : Nat := 8080
  max_playlist_size : Nat := 100
  max_queue_size : Nat := 50
  auto_disconnect_timeout : Nat := 300
  max_song_duration : Nat := 3600
deriving DecidableEq

/-- `Song` dataclass, music_player.py lines 13-20.  The requester
(a discord.Member in the source) is modelled by its member id. -/
structure Song where
  title : String
  url : String
  webpage_url : String
  duration : Option Nat := none
  requester : Option Nat := none
deriving DecidableEq

/-- `MusicQueue`, music_player.py lines 23-57.  The deque is a list whose
head is the front of the deque. -/
structure MusicQueue where
  queue : List Song
  current : Option Song
  is_playing : Bool
  is_paused : Bool
deriving DecidableEq

/-- `MusicQueue.__init__` (lines 26-30). -/
def MusicQueue.init : MusicQueue :=
  { queue := [], current := none, is_playing := false, is_paused := false }

/-- `MusicQueue.add` (lines 32-34): `self.queue.append(song)`. -/
def MusicQueue.add (q : MusicQueue) (song : Song) : MusicQueue :=
  { q with queue := q.queue ++ [song] }

/-- `MusicQueue.next` (lines 36-40): popleft if non-empty, else None.
The Python method mutates the deque and returns the song; purely this is
the returned song together with the updated queue. -/
def MusicQueue.next (q : MusicQueue) : Option Song × MusicQueue :=
  match q.queue with
  | [] => (none, q)
  | song :: rest => (some song, { q with queue := rest })

/-- `MusicQueue.skip` (lines 42-46): textually the same body as `next`. -/
def MusicQueue.skip (q : MusicQueue) : Option Song × MusicQueue :=
  match q.queue with
  | [] => (none, q)
  | song :: rest => (some song, { q with queue := rest })

/-- `MusicQueue.clear` (lines 48-53). -/
def MusicQueue.clear (_q : MusicQueue) : MusicQueue :=
  { queue := [], current := none, is_playing := false, is_paused := false }

/-- `MusicQueue.get_queue_list` (lines 55-57). -/
def MusicQueue.get_queue_list (q : MusicQueue) : List Song :=
  q.queue

/-- The observable surface of `discord.VoiceClient` that the cog uses
(an external capability, spec section 4.3).  `source_active` is whether a
playback source is installed; per discord.py semantics `is_playing` is
true only while not paused. -/
structure VoiceClient where
  connected : Bool
  channel : Nat
  source_active : Bool
  paused : Bool
deriving DecidableEq

def VoiceClient.is_connected (v : VoiceClient) : Bool := v.connected

def VoiceClient.is_playing (v : VoiceClient) : Bool :=
  v.source_active && !v.paused

def VoiceClient.is_paused (v : VoiceClient) : Bool :=
  v.source_active && v.paused

/-- `voice_client.play(source, after=...)`: installs a fresh source.  The
`after` callback is delivered later as its own event-loop step. -/
def VoiceClient.play (v : VoiceClient) : VoiceClient :=
  { v with source_active := true, paused := false }

def VoiceClient.pause (v : VoiceClient) : VoiceClient :=
  { v with paused := true }

def VoiceClient.resume (v : VoiceClient) : VoiceClient :=
  { v with paused := false }

/-- `voice_client.stop()`: tears down the source (which makes the transport
invoke the registered finish callback on its player thread). -/
def VoiceClient.stopSource (v : VoiceClient) : VoiceClient :=
  { v with source_active := false }

/-- One asyncio task created by `start_inactivity_timer` (line 240).
`live` is true while the task is pending: neither cancelled nor finished. -/
structure WatchdogTask where
  tid : Nat
  duration : Nat
  live : Bool
deriving DecidableEq

/-- The per-guild slice of MusicPlayer's state: `queues[gid]` (created on
demand by get_queue, so always present here), `voice_clients.get(gid)`,
`inactivity_timers.get(gid)` (the task id in the dict slot), plus the pool
of all watchdog tasks ever created for this guild and a fresh-id counter. -/
structure SessionState where
  queue : MusicQueue
  voice_client : Option VoiceClient
  timerSlot : Option Nat
  tasks : List WatchdogTask
  nextTid : Nat
deriving DecidableEq

/-- Fresh session: empty queue (get_queue default), no voice client,
no timer. -/
def SessionState.init : SessionState :=
  { queue := MusicQueue.init, voice_client := none, timerSlot := none,
    tasks := [], nextTid := 0 }

/-- The duration passed to asyncio.sleep by the inactivity timeout
(music_player.py line 231).  The source hardcodes the literal 300 even
though the bot's BotConfig (with auto_disconnect_timeout) is reachable as
self.bot.config; the config argument is therefore unused. -/
def timer_sleep_duration (_cfg : BotConfig) : Nat := 300

/-- `max_retries` in MusicPlayer.play (line 314): the literal 2, not read
from the config. -/
def connect_max_retries (_cfg : BotConfig) : Nat := 2

/-- The inter-attempt delay asyncio.sleep(3) in MusicPlayer.play
(line 360): the literal 3, not read from the config. -/
def connect_retry_delay (_cfg : BotConfig) : Nat := 3

/-- The post-connect settle delay asyncio.sleep(1.0) in MusicPlayer.play
(line 322): the literal 1 second, not read from the config. -/
def settle_delay (_cfg : BotConfig) : Nat := 1

/-- `cancel_inactivity_timer` (lines 246-250): if the guild has a timer in
the dict, cancel the task and delete the dict entry. -/
def cancel_inactivity_timer (s : SessionState) : SessionState :=
  match s.timerSlot with
  | none => s
  | some i =>
      { s with
        timerSlot := none,
        tasks := s.tasks.map fun t =>
          if t.tid = i then { t with live := false } else t }

/-- `start_inactivity_timer` (lines 226-240): first cancels any existing
timer, then creates a new task sleeping `timer_sleep_duration` and stores
it in the dict slot. -/
def start_inactivity_timer (cfg : BotConfig) (s : SessionState) : SessionState :=
  let s1 := cancel_inactivity_timer s
  { s1 with
    timerSlot := some s1.nextTid,
    tasks := s1.tasks ++ [⟨s1.nextTid, timer_sleep_duration cfg, true⟩],
    nextTid := s1.nextTid + 1 }

/-- `reset_inactivity_timer` (lines 242-244): just cancels. -/
def reset_inactivity_timer (s : SessionState) : SessionState :=
  cancel_inactivity_timer s

/-- The body of `inactivity_timeout` (lines 230-238) running when a pending
watchdog task fires after its sleep: the task completes (live := false);
then, if a connected voice client exists and nothing is playing and the
queue is empty, it disconnects and pops the voice client.  The dict entry
in inactivity_timers is NOT removed by firing (the source has no del
there). -/
def fire_watchdog (s : SessionState) : SessionState :=
  match s.timerSlot with
  | none => s
  | some i =>
      if s.tasks.any (fun t => t.tid == i && t.live) then
        let s1 := { s with
          tasks := s.tasks.map fun (t : WatchdogTask) =>
            if t.tid = i then { t with live := false } else t }
        match s1.voice_client with
        | some v =>
            if v.is_connected && !s1.queue.is_playing && s1.queue.queue.isEmpty
            then { s1 with voice_client := none }
            else s1
        | none => s1
      else s

/-- `play_next` (lines 157-224).  `playOk` is whether creating the FFmpeg
source and starting transport playback succeeds (the try block lines
179-219); on exception only `is_playing` is reset (line 219).  Note the
disconnected-transport branch (lines 163-169) sets is_playing := false and
pops the dead client but leaves `current` untouched, and the empty-queue
branch (lines 220-224) clears current and is_playing but not is_paused. -/
def play_next (cfg : BotConfig) (s : SessionState) (playOk : Bool) : SessionState :=
  match s.voice_client with
  | none =>
      { s with queue := { s.queue with is_playing := false } }
  | some v =>
      if !v.is_connected then
        { s with voice_client := none,
                 queue := { s.queue with is_playing := false } }
      else
        match s.queue.next with
        | (some song, q1) =>
            let q2 := { q1 with current := some song, is_playing := true,
                                is_paused := false }
            if playOk then
              reset_inactivity_timer
                { s with queue := q2, voice_client := some v.play }
            else
              { s with queue := { q2 with is_playing := false },
                       voice_client := some v }
        | (none, _) =>
            start_inactivity_timer cfg
              { s with queue := { s.queue with is_playing := false,
                                               current := none } }

/-- Outcome of one `voice_channel.connect(...)` attempt (line 319): either
it returns a client (whose is_connected flag may still be false, line 324),
or it raises. -/
inductive ConnectOutcome where
  | ok (connected : Bool)
  | raised
deriving DecidableEq

/-- Observable external effects of the play command, for stating the retry
and cleanup discipline. -/
inductive Event where
  | connectAttempt (k : Nat)
  | settleSleep (secs : Nat)
  | retrySleep (secs : Nat)
  | releaseHalf
  | clearStale
  | moveWait
  | prePlayWait
  | enqueueTrack
deriving DecidableEq

/-- The connection retry loop of MusicPlayer.play (lines 312-363), unrolled
over the list of attempt outcomes (the source iterates
`range(max_retries)` with max_retries = 2, so the list passed in has
length `connect_max_retries cfg`).  Per iteration:
  - a returned client is followed by the settle sleep (line 322) and the
    is_connected check (line 324); a half-connected client is released
    (`cleanup`, lines 330-332) and the loop continues with NO retry delay;
  - a raised attempt runs the except block (lines 334-356): release of any
    partial local client, forced disconnect of any stale guild-level
    client, removal of the internal reference (together `clearStale`),
    then — only when another attempt remains — asyncio.sleep(3)
    (lines 358-360). -/
def connect_loop (cfg : BotConfig) (chan : Nat) (k : Nat) :
    List ConnectOutcome → Option VoiceClient × List Event
  | [] => (none, [])
  | o :: rest =>
      match o with
      | .ok conn =>
          let evs := [Event.connectAttempt k, Event.settleSleep (settle_delay cfg)]
          if conn then
            (some { connected := true, channel := chan,
                    source_active := false, paused := false }, evs)
          else
            let (r, evs2) := connect_loop cfg chan (k + 1) rest
            (r, evs ++ [Event.releaseHalf] ++ evs2)
      | .raised =>
          let evs := [Event.connectAttempt k, Event.clearStale]
          let sleepEvs : List Event :=
            if rest.isEmpty then [] else [Event.retrySleep (connect_retry_delay cfg)]
          let (r, evs2) := connect_loop cfg chan (k + 1) rest
          (r, evs ++ sleepEvs ++ evs2)

/-- Result of the play slash command as seen by the caller (the followup
message sent), music_player.py lines 252-399. -/
inductive PlayResult where
  | notInChannel
  | noPermission
  | connectFailed
  | moveFailed
  | resolveFailed
  | started
  | queued (pos : Nat)
deriving DecidableEq

/-- External inputs to one invocation of the play command. -/
structure PlayInputs where
  userInVoice : Bool
  canConnect : Bool
  canSpeak : Bool
  targetChannel : Nat
  attempt1 : ConnectOutcome
  attempt2 : ConnectOutcome
  resolve : Option Song
  requester : Option Nat
  moveOk : Bool
  playOk : Bool
deriving DecidableEq

/-- Lines 381-399 of MusicPlayer.play: resolve the query (extract_song_info,
whose outcome is the external input `resolve`); on failure reply and stop;
otherwise set the requester, append to the queue, and either start playback
(after the one-second delay of line 396) when nothing is playing, or report
the queue position len(queue.queue). -/
def resolve_and_enqueue (cfg : BotConfig) (s : SessionState) (inp : PlayInputs)
    (evs : List Event) : PlayResult × SessionState × List Event :=
  match inp.resolve with
  | none => (.resolveFailed, s, evs)
  | some song =>
      let song2 := { song with requester := inp.requester }
      let q := s.queue.add song2
      let s2 := { s with queue := q }
      if !q.is_playing then
        (.started, play_next cfg s2 inp.playOk,
         evs ++ [Event.enqueueTrack, Event.prePlayWait])
      else
        (.queued q.queue.length, s2, evs ++ [Event.enqueueTrack])

/-- Lines 312-369: run the connect loop; on exhaustion the raised exception
of line 363 is caught at line 365 and reported to the caller as a message
(typed failure), otherwise store the client and continue. -/
def connect_and_continue (cfg : BotConfig) (s : SessionState) (inp : PlayInputs)
    (evs0 : List Event) : PlayResult × SessionState × List Event :=
  match connect_loop cfg inp.targetChannel 1 [inp.attempt1, inp.attempt2] with
  | (none, evs) => (.connectFailed, s, evs0 ++ evs)
  | (some vc, evs) =>
      resolve_and_enqueue cfg { s with voice_client := some vc } inp (evs0 ++ evs)

/-- `MusicPlayer.play` (lines 252-399).  Checks in source order: the caller
must be in a voice channel (line 258), the bot needs connect and speak
permission (lines 266-272).  If the stored client is absent or dead: the
dead client is cleaned up and dropped (lines 282-285, `releaseHalf`), any
stale guild-level client is force-disconnected (lines 287-310,
`clearStale`), then the retry loop runs.  If the stored client is live but
on another channel it is moved (lines 370-379), with `moveOk` telling
whether move_to raised.  Then resolution and enqueueing. -/
def play_cmd (cfg : BotConfig) (s : SessionState) (inp : PlayInputs) :
    PlayResult × SessionState × List Event :=
  if !inp.userInVoice then (.notInChannel, s, [])
  else if !inp.canConnect || !inp.canSpeak then (.noPermission, s, [])
  else
    match s.voice_client with
    | some v =>
        if v.is_connected then
          if v.channel ≠ inp.targetChannel then
            if inp.moveOk then
              resolve_and_enqueue cfg
                { s with voice_client := some { v with channel := inp.targetChannel } }
                inp [Event.moveWait]
            else (.moveFailed, s, [])
          else resolve_and_enqueue cfg s inp []
        else
          connect_and_continue cfg { s with voice_client := none } inp
            [Event.releaseHalf, Event.clearStale]
    | none => connect_and_continue cfg s inp [Event.clearStale]

/-- Reply of the simple commands. -/
inductive CmdResponse where
  | acted
  | nothingPlaying
  | nothingPaused
deriving DecidableEq

/-- `pause` command (lines 401-412). -/
def pause_cmd (s : SessionState) : CmdResponse × SessionState :=
  match s.voice_client with
  | some v =>
      if v.is_playing then
        (.acted, { s with voice_client := some v.pause,
                          queue := { s.queue with is_paused := true } })
      else (.nothingPlaying, s)
  | none => (.nothingPlaying, s)

/-- `resume` command (lines 414-425). -/
def resume_cmd (s : SessionState) : CmdResponse × SessionState :=
  match s.voice_client with
  | some v =>
      if v.is_paused then
        (.acted, { s with voice_client := some v.resume,
                          queue := { s.queue with is_paused := false } })
      else (.nothingPaused, s)
  | none => (.nothingPaused, s)

/-- `skip` command (lines 427-437): when something is playing or paused it
calls voice_client.stop() (whose finish callback is delivered later as a
separate step) and replies skipped; otherwise replies that nothing is
playing, touching no state. -/
def skip_cmd (s : SessionState) : CmdResponse × SessionState :=
  match s.voice_client with
  | some v =>
      if v.is_playing || v.is_paused then
        (.acted, { s with voice_client := some v.stopSource })
      else (.nothingPlaying, s)
  | none => (.nothingPlaying, s)

/-- `stop` command (lines 439-454): if a voice client exists it is stopped
(the stop only affects the discarded transport handle and schedules a stale
finish callback), disconnected and popped, and the inactivity timer is
cancelled; in every case the queue is cleared and the reply is success. -/
def stop_cmd (s : SessionState) : CmdResponse × SessionState :=
  match s.voice_client with
  | some _ =>
      let s1 := cancel_inactivity_timer { s with voice_client := none }
      (.acted, { s1 with queue := s1.queue.clear })
  | none => (.acted, { s with queue := s.queue.clear })

/-- `MusicBot.on_voice_state_update`, main.py lines 106-120, the branch
where the transport reports that the bot itself left a voice channel: if
the cog still holds a voice client for the guild it is popped and the
guild's queue is cleared.  The inactivity timer is not touched by this
handler. -/
def bot_disconnected (s : SessionState) : SessionState :=
  match s.voice_client with
  | some _ => { s with voice_client := none, queue := s.queue.clear }
  | none => s

/-- Modelled environment event (not a handler of the source): the transport
connection drops, so is_connected starts returning false, before any
handler has run. -/
def transport_drop (s : SessionState) : SessionState :=
  match s.voice_client with
  | some v => { s with voice_client := some { v with connected := false } }
  | none => s

/-- One completed operation on a guild's session: a serviced command, a
delivered finish callback, a fired watchdog, the voice-state-update
handler, or the environment dropping the connection. -/
inductive Op where
  | play (inp : PlayInputs)
  | finishDelivered (playOk : Bool)
  | pauseOp
  | resumeOp
  | skipOp
  | stopOp
  | fireWatchdog
  | botDisconnected
  | transportDrop
deriving DecidableEq

def step (cfg : BotConfig) (s : SessionState) : Op → SessionState
  | .play inp => (play_cmd cfg s inp).2.1
  | .finishDelivered playOk => play_next cfg s playOk
  | .pauseOp => (pause_cmd s).2
  | .resumeOp => (resume_cmd s).2
  | .skipOp => (skip_cmd s).2
  | .stopOp => (stop_cmd s).2
  | .fireWatchdog => fire_watchdog s
  | .botDisconnected => bot_disconnected s
  | .transportDrop => transport_drop s

def run (cfg : BotConfig) (s : SessionState) (ops : List Op) : SessionState :=
  ops.foldl (step cfg) s

/-- The watchdog tasks of a session that are still pending. -/
def liveTasks (s : SessionState) : List WatchdogTask :=
  s.tasks.filter (fun t => t.live)

/-- The queue-level invariant claimed by the spec: `current` is non-null
iff the status is Playing or Paused (status flags is_playing/is_paused). -/
def qInv (q : MusicQueue) : Bool :=
  q.current.isSome == (q.is_playing || q.is_paused)

/-- Well-formedness of the watchdog bookkeeping: every pending task is the
one registered in the dict slot, task ids are below the fresh counter, and
task ids are distinct. -/
def WatchdogInv (s : SessionState) : Prop :=
  (∀ t ∈ s.tasks, t.live = true → s.timerSlot = some t.tid)
  ∧ (∀ t ∈ s.tasks, t.tid < s.nextTid)
  ∧ (s.tasks.map (fun t => t.tid)).Nodup

instance (s : SessionState) : Decidable (WatchdogInv s) := by
  unfold WatchdogInv; infer_instance

/-- `after_playing`, music_player.py lines 197-207: the callback the
transport invokes on its player thread when a track ends.  Its actions on
the foreign thread. -/
inductive LoopJob where
  | playNextJob (guild_id : Nat)
deriving DecidableEq

inductive ForeignAction where
  | logMessage (msg : String)
  | runCoroutineThreadsafe (job : LoopJob)
  | mutateSession
deriving DecidableEq

/-- Whether a foreign-thread action touches PlaybackSession or Queue state
directly.  Logging does not; run_coroutine_threadsafe only enqueues a job
onto the event loop through asyncio's thread-safe call_soon_threadsafe
handoff; `mutateSession` stands for a direct mutation from the foreign
thread, which `after_playing` never performs. -/
def ForeignAction.touches_session : ForeignAction → Bool
  | .mutateSession => true
  | _ => false

/-- `after_playing` (lines 197-207): log the error or the normal finish,
then schedule `play_next(guild_id)` onto the bot's event loop with
asyncio.run_coroutine_threadsafe. -/
def after_playing (guild_id : Nat) (error : Option String) : List ForeignAction :=
  match error with
  | some e => [.logMessage ("Player error: " ++ e),
               .runCoroutineThreadsafe (.playNextJob guild_id)]
  | none => [.logMessage ("Song finished playing"),
             .runCoroutineThreadsafe (.playNextJob guild_id)]

/-! Concrete fixtures used by witnesses and counterexamples. -/

def t1 : Song := { title := "T1", url := "u1", webpage_url := "w1" }

def t2 : Song := { title := "T2", url := "u2", webpage_url := "w2" }

def t3 : Song := { title := "T3", url := "u3", webpage_url := "w3" }

/-- A configuration with the dataclass defaults. -/
def cfg0 : BotConfig := { token := "tok" }

/-- A configuration whose injected idle timeout and queue bound differ from
the hardcoded reference values. -/
def cfg60 : BotConfig :=
  { token := "tok", auto_disconnect_timeout := 60, max_queue_size := 1 }

/-- Inputs for a fully successful play command for `song`. -/
def inpOk (song : Song) : PlayInputs :=
  { userInVoice := true, canConnect := true, canSpeak := true,
    targetChannel := 7, attempt1 := .ok true, attempt2 := .ok true,
    resolve := some song, requester := some 42, moveOk := true,
    playOk := true }

/-- Inputs for a play command whose two connect attempts both raise. -/
def inpBothRaise : PlayInputs :=
  { userInVoice := true, canConnect := true, canSpeak := true,
    targetChannel := 7, attempt1 := .raised, attempt2 := .raised,
    resolve := some t1, requester := some 42, moveOk := true,
    playOk := true }

/-! ## C10: MusicQueue.skip is extensionally MusicQueue.next -/

/-- C10 (confirmed): `MusicQueue.skip` is extensionally equal to
`MusicQueue.next`: both remove and return the head of the pending deque
when non-empty, both return none leaving the queue unchanged when empty,
and neither touches `current` or the status flags. -/
theorem c10_skip_next_equivalent (q : MusicQueue) :
    q.skip = q.next
    ∧ q.skip.1 = q.queue.head?
    ∧ q.skip.2.queue = q.queue.tail
    ∧ q.skip.2.current = q.current
    ∧ q.skip.2.is_playing = q.is_playing
    ∧ q.skip.2.is_paused = q.is_paused := by
  obtain ⟨l, c, p, pa⟩ := q
  cases l <;> simp [MusicQueue.skip, MusicQueue.next]

/-! ## C9: the finish callback only hands off to the event loop -/

/-- C9 (confirmed): every action `after_playing` performs on the
transport's foreign player thread is a log or a thread-safe
run_coroutine_threadsafe handoff; it never touches session or queue state
directly, and the state-mutating continuation (play_next) is delivered
only as a job scheduled onto the cooperative event loop. -/
theorem c9_finish_callback_handoff (gid : Nat) (error : Option String) :
    (∀ a ∈ after_playing gid error, a.touches_session = false)
    ∧ ForeignAction.runCoroutineThreadsafe (.playNextJob gid)
        ∈ after_playing gid error := by
  cases error <;>
    simp [after_playing, ForeignAction.touches_session]

/-! ## C2: stale finish callbacks -/

/-- C2 (amended claim): a finish callback delivered after an accepted stop
with no intervening play is a no-op: play_next finds no connection handle
for the guild and leaves the cleared session state exactly as stop left
it. -/
theorem c2_stale_finish_noop_after_stop (cfg : BotConfig) (s : SessionState)
    (playOk : Bool) :
    play_next cfg (stop_cmd s).2 playOk = (stop_cmd s).2 := by
  obtain ⟨q, vc, slot, tasks, n⟩ := s
  cases vc <;> cases slot <;>
    simp [stop_cmd, play_next, MusicQueue.clear, cancel_inactivity_timer]

/-- The session state after: play T1; stop; play T2; play T3 — so the
finish callback of the stopped T1 is still undelivered while T2 plays with
T3 pending. -/
def c2_state : SessionState :=
  run cfg0 SessionState.init
    [Op.play (inpOk t1), Op.stopOp, Op.play (inpOk t2), Op.play (inpOk t3)]

/-- C2 (counterexample): the code has no generation token, so the stale
finish callback of the superseded, stopped track T1 — delivered after a
subsequent stop and play — is NOT a no-op: running its scheduled
play_next pops pending track T3 and overwrites `current` while T2 is the
genuinely playing track. -/
theorem c2_stale_finish_mutates_after_stop_play :
    c2_state.queue.current = some { t2 with requester := some 42 }
    ∧ c2_state.queue.queue = [{ t3 with requester := some 42 }]
    ∧ (play_next cfg0 c2_state true).queue.current
        = some { t3 with requester := some 42 }
    ∧ (play_next cfg0 c2_state true).queue.queue = []
    ∧ (play_next cfg0 c2_state true).queue ≠ c2_state.queue := by
  decide

/-! ## C7: stop and skip idempotence -/

/-- C7 (confirmed): stop is idempotent — a second stop returns the same
observable Idle state (queue cleared, no connection handle) and succeeds
rather than erroring — and skip with nothing playing or paused changes no
state and reports that nothing is playing. -/
theorem c7_stop_skip_idempotent (s : SessionState) :
    (stop_cmd (stop_cmd s).2).2 = (stop_cmd s).2
    ∧ (stop_cmd (stop_cmd s).2).1 = CmdResponse.acted
    ∧ (stop_cmd s).2.voice_client = none
    ∧ (stop_cmd s).2.queue = s.queue.clear
    ∧ ((∀ v ∈ s.voice_client, v.is_playing = false ∧ v.is_paused = false) →
        skip_cmd s = (CmdResponse.nothingPlaying, s)) := by
  obtain ⟨q, vc, slot, tasks, n⟩ := s
  cases vc with
  | none =>
      refine ⟨?_, ?_, ?_, ?_, ?_⟩ <;>
        simp [stop_cmd, skip_cmd, MusicQueue.clear, cancel_inactivity_timer]
  | some v =>
      cases slot <;>
        refine ⟨?_, ?_, ?_, ?_, ?_⟩ <;>
          simp [stop_cmd, skip_cmd, MusicQueue.clear, cancel_inactivity_timer]

/-- Witness for C7 at a concrete state with nothing playing. -/
theorem c7_stop_skip_idempotent_witness :
    skip_cmd SessionState.init = (CmdResponse.nothingPlaying, SessionState.init)
    ∧ (stop_cmd (stop_cmd SessionState.init).2).2 = (stop_cmd SessionState.init).2 :=
  ⟨(c7_stop_skip_idempotent SessionState.init).2.2.2.2
      (by intro v hv; simp [SessionState.init, Option.mem_def] at hv),
   (c7_stop_skip_idempotent SessionState.init).1⟩

/-! ## C8: configuration injection -/

/-- C8 (counterexample): with an injected configuration whose idle timeout
is 60 seconds and whose queue bound is 1, the armed inactivity watchdog
still sleeps the hardcoded 300 seconds, and enqueueing past the configured
maximum queue length succeeds — the playback session does not consume the
configuration value. -/
theorem c8_config_ignored :
    cfg60.auto_disconnect_timeout = 60
    ∧ timer_sleep_duration cfg60 = 300
    ∧ timer_sleep_duration cfg60 ≠ cfg60.auto_disconnect_timeout
    ∧ (liveTasks (start_inactivity_timer cfg60 SessionState.init)).map
        (fun t => t.duration) = [300]
    ∧ cfg60.max_queue_size = 1
    ∧ ((MusicQueue.init.add t1).add t2).queue.length = 2 := by
  decide

/-- C8 (amended claim): the idle-timeout duration, connect-retry count,
inter-attempt delay and settle delay are hardcoded literals (300 s, 2
attempts, 3 s, 1 s) independent of the injected configuration, and enqueue
is unbounded: BotConfig defines auto_disconnect_timeout and max_queue_size
but the playback session never consults them. -/
theorem c8_hardcoded_constants_amended (cfg : BotConfig) (q : MusicQueue)
    (song : Song) :
    timer_sleep_duration cfg = 300
    ∧ connect_max_retries cfg = 2
    ∧ connect_retry_delay cfg = 3
    ∧ settle_delay cfg = 1
    ∧ (q.add song).queue = q.queue ++ [song]
    ∧ (liveTasks (start_inactivity_timer cfg SessionState.init)).map
        (fun t => t.duration) = [300] := by
  refine ⟨rfl, rfl, rfl, rfl, rfl, ?_⟩
  simp [start_inactivity_timer, cancel_inactivity_timer, SessionState.init,
    liveTasks, timer_sleep_duration]

/-! ## C3: a failed play leaves the pending queue unchanged -/

lemma resolve_and_enqueue_pending (cfg : BotConfig) (s : SessionState)
    (inp : PlayInputs) (evs : List Event)
    (h : (resolve_and_enqueue cfg s inp evs).1 = PlayResult.connectFailed
       ∨ (resolve_and_enqueue cfg s inp evs).1 = PlayResult.resolveFailed) :
    (resolve_and_enqueue cfg s inp evs).2.1.queue.queue = s.queue.queue := by
  revert h
  unfold resolve_and_enqueue
  split
  · intro _; rfl
  · dsimp only
    split
    · intro h; rcases h with h | h <;> simp at h
    · intro h; rcases h with h | h <;> simp at h

lemma connect_and_continue_pending (cfg : BotConfig) (s : SessionState)
    (inp : PlayInputs) (evs0 : List Event)
    (h : (connect_and_continue cfg s inp evs0).1 = PlayResult.connectFailed
       ∨ (connect_and_continue cfg s inp evs0).1 = PlayResult.resolveFailed) :
    (connect_and_continue cfg s inp evs0).2.1.queue.queue = s.queue.queue := by
  revert h
  unfold connect_and_continue
  split
  · intro _; rfl
  · intro h
    exact resolve_and_enqueue_pending cfg _ inp _ h

/-- C3 (confirmed): whenever the play command fails with ConnectFailed
(connect attempts exhausted) or ResolveFailed (no song resolved), the
guild's pending queue after the call is exactly the pending queue before
the call: neither failure enqueues or leaves a partial track. -/
theorem c3_failed_play_preserves_pending (cfg : BotConfig) (s : SessionState)
    (inp : PlayInputs)
    (h : (play_cmd cfg s inp).1 = PlayResult.connectFailed
       ∨ (play_cmd cfg s inp).1 = PlayResult.resolveFailed) :
    (play_cmd cfg s inp).2.1.queue.queue = s.queue.queue := by
  revert h
  unfold play_cmd
  split
  · intro h; rcases h with h | h <;> simp at h
  · split
    · intro h; rcases h with h | h <;> simp at h
    · split
      · split
        · split
          · split
            · intro h
              exact resolve_and_enqueue_pending cfg _ inp _ h
            · intro h; rcases h with h | h <;> simp at h
          · intro h
            exact resolve_and_enqueue_pending cfg _ inp _ h
        · intro h
          exact connect_and_continue_pending cfg _ inp _ h
      · intro h
        exact connect_and_continue_pending cfg _ inp _ h

/-- Witness for C3: a concrete call whose two connect attempts raise. -/
theorem c3_failed_play_preserves_pending_witness :
    (play_cmd cfg0 SessionState.init inpBothRaise).1 = PlayResult.connectFailed
    ∧ (play_cmd cfg0 SessionState.init inpBothRaise).2.1.queue.queue
        = SessionState.init.queue.queue :=
  ⟨by decide,
   c3_failed_play_preserves_pending cfg0 SessionState.init inpBothRaise
     (Or.inl (by decide))⟩

/-! ## C4: bounded connect retry with cleanup -/

/-- Recognizer for connect-attempt events in the play command's trace. -/
def Event.isAttempt : Event → Bool
  | .connectAttempt _ => true
  | _ => false

/-- C4 (confirmed): when play finds no transport connection for the guild
and every connect attempt fails (raising, or returning a half-established
client), it makes exactly `connect_max_retries cfg = 2` attempts; any
stale transport resource already known for the guild is force-cleared
before the first attempt; between the attempts a release of the failed
attempt's resources happens (releaseHalf for a half-established client,
the clearStale release path after a raise), and after a raised first
attempt the fixed 3-second inter-attempt delay is slept; on exhaustion the
session state is unchanged — in particular no transport connection is
held — and the caller receives the typed ConnectFailed report rather than
a propagated exception. -/
theorem c4_connect_retry_bounded_cleanup (cfg : BotConfig) (s : SessionState)
    (inp : PlayInputs)
    (hU : inp.userInVoice = true) (hC : inp.canConnect = true)
    (hS : inp.canSpeak = true) (hvc : s.voice_client = none)
    (h1 : inp.attempt1 = ConnectOutcome.raised
        ∨ inp.attempt1 = ConnectOutcome.ok false)
    (h2 : inp.attempt2 = ConnectOutcome.raised
        ∨ inp.attempt2 = ConnectOutcome.ok false) :
    (play_cmd cfg s inp).1 = PlayResult.connectFailed
    ∧ (play_cmd cfg s inp).2.1 = s
    ∧ (play_cmd cfg s inp).2.1.voice_client = none
    ∧ ((play_cmd cfg s inp).2.2.filter Event.isAttempt).length
        = connect_max_retries cfg
    ∧ (∃ mid post,
        (play_cmd cfg s inp).2.2
          = [Event.clearStale, Event.connectAttempt 1] ++ mid
            ++ [Event.connectAttempt 2] ++ post
        ∧ (Event.releaseHalf ∈ mid ∨ Event.clearStale ∈ mid)
        ∧ (inp.attempt1 = ConnectOutcome.raised →
            Event.retrySleep (connect_retry_delay cfg) ∈ mid)) := by
  rcases h1 with h1 | h1 <;> rcases h2 with h2 | h2
  · have hpc : play_cmd cfg s inp
        = (PlayResult.connectFailed, s,
           [Event.clearStale, Event.connectAttempt 1, Event.clearStale,
            Event.retrySleep 3, Event.connectAttempt 2, Event.clearStale]) := by
      simp [play_cmd, connect_and_continue, connect_loop, hU, hC, hS, hvc,
        h1, h2, connect_retry_delay]
    rw [hpc]
    exact ⟨rfl, rfl, hvc, rfl,
      ⟨[Event.clearStale, Event.retrySleep 3], [Event.clearStale], rfl,
       Or.inr (by decide), fun _ => by simp [connect_retry_delay]⟩⟩
  · have hpc : play_cmd cfg s inp
        = (PlayResult.connectFailed, s,
           [Event.clearStale, Event.connectAttempt 1, Event.clearStale,
            Event.retrySleep 3, Event.connectAttempt 2, Event.settleSleep 1,
            Event.releaseHalf]) := by
      simp [play_cmd, connect_and_continue, connect_loop, hU, hC, hS, hvc,
        h1, h2, connect_retry_delay, settle_delay]
    rw [hpc]
    exact ⟨rfl, rfl, hvc, rfl,
      ⟨[Event.clearStale, Event.retrySleep 3],
       [Event.settleSleep 1, Event.releaseHalf], rfl,
       Or.inr (by decide), fun _ => by simp [connect_retry_delay]⟩⟩
  · have hpc : play_cmd cfg s inp
        = (PlayResult.connectFailed, s,
           [Event.clearStale, Event.connectAttempt 1, Event.settleSleep 1,
            Event.releaseHalf, Event.connectAttempt 2, Event.clearStale]) := by
      simp [play_cmd, connect_and_continue, connect_loop, hU, hC, hS, hvc,
        h1, h2, settle_delay]
    rw [hpc]
    refine ⟨rfl, rfl, hvc, rfl,
      ⟨[Event.settleSleep 1, Event.releaseHalf], [Event.clearStale], rfl,
       Or.inl (by decide), ?_⟩⟩
    intro he
    rw [h1] at he
    exact absurd he (by decide)
  · have hpc : play_cmd cfg s inp
        = (PlayResult.connectFailed, s,
           [Event.clearStale, Event.connectAttempt 1, Event.settleSleep 1,
            Event.releaseHalf, Event.connectAttempt 2, Event.settleSleep 1,
            Event.releaseHalf]) := by
      simp [play_cmd, connect_and_continue, connect_loop, hU, hC, hS, hvc,
        h1, h2, settle_delay]
    rw [hpc]
    refine ⟨rfl, rfl, hvc, rfl,
      ⟨[Event.settleSleep 1, Event.releaseHalf],
       [Event.settleSleep 1, Event.releaseHalf], rfl,
       Or.inl (by decide), ?_⟩⟩
    intro he
    rw [h1] at he
    exact absurd he (by decide)

/-- Witness for C4: both attempts raise, on the default configuration. -/
theorem c4_connect_retry_bounded_cleanup_witness :
    (play_cmd cfg0 SessionState.init inpBothRaise).1 = PlayResult.connectFailed
    ∧ (play_cmd cfg0 SessionState.init inpBothRaise).2.1 = SessionState.init :=
  ⟨(c4_connect_retry_bounded_cleanup cfg0 SessionState.init inpBothRaise
      rfl rfl rfl rfl (Or.inl rfl) (Or.inl rfl)).1,
   (c4_connect_retry_bounded_cleanup cfg0 SessionState.init inpBothRaise
      rfl rfl rfl rfl (Or.inl rfl) (Or.inl rfl)).2.1⟩

/-! ## C6: unexpected transport disconnect -/

/-- The session state after playing T1 to completion: the queue is empty
and Idle, the voice client is still connected, and the inactivity watchdog
armed by the empty-queue branch of play_next is pending. -/
def c6_state : SessionState :=
  run cfg0 SessionState.init [Op.play (inpOk t1), Op.finishDelivered true]

/-- C6 (counterexample): when the transport reports that the bot was
disconnected, the handler clears the queue and releases the connection
handle but does NOT cancel the pending inactivity watchdog: the armed
watchdog task is still pending afterwards, contradicting the claim that
the watchdog is cancelled. -/
theorem c6_watchdog_survives_disconnect :
    c6_state.voice_client.isSome = true
    ∧ (liveTasks c6_state).length = 1
    ∧ (bot_disconnected c6_state).voice_client = none
    ∧ (bot_disconnected c6_state).queue = MusicQueue.init
    ∧ liveTasks (bot_disconnected c6_state) = liveTasks c6_state
    ∧ (liveTasks (bot_disconnected c6_state)).length = 1 := by
  decide

/-- C6 (amended claim): on a reported disconnect of the bot's voice
connection while a handle is held, the session's queue is cleared (pending
emptied, current none, status Idle) and the connection handle is released,
but the pending inactivity watchdog is left untouched; when that watchdog
later fires it performs no teardown because the connection handle is
already gone. -/
theorem c6_disconnect_cleanup_amended (s : SessionState) (v : VoiceClient)
    (h : s.voice_client = some v) :
    bot_disconnected s
      = { s with voice_client := none, queue := s.queue.clear }
    ∧ (bot_disconnected s).queue.queue = []
    ∧ (bot_disconnected s).queue.current = none
    ∧ (bot_disconnected s).queue.is_playing = false
    ∧ (bot_disconnected s).tasks = s.tasks
    ∧ (bot_disconnected s).timerSlot = s.timerSlot
    ∧ (fire_watchdog (bot_disconnected s)).voice_client = none := by
  obtain ⟨q, vc, slot, tasks, n⟩ := s
  cases h
  refine ⟨rfl, rfl, rfl, rfl, rfl, rfl, ?_⟩
  cases slot with
  | none => rfl
  | some i =>
      simp only [fire_watchdog, bot_disconnected]
      split <;> rfl

/-- Witness for C6 (amended) at the concrete pre-disconnect state. -/
theorem c6_disconnect_cleanup_amended_witness :
    bot_disconnected c6_state
      = { c6_state with voice_client := none, queue := c6_state.queue.clear }
    ∧ (bot_disconnected c6_state).tasks = c6_state.tasks :=
  ⟨(c6_disconnect_cleanup_amended c6_state
      { connected := true, channel := 7, source_active := true, paused := false }
      (by decide)).1,
   (c6_disconnect_cleanup_amended c6_state
      { connected := true, channel := 7, source_active := true, paused := false }
      (by decide)).2.2.2.2.1⟩

/-- fire_watchdog never modifies the guild's queue. -/
lemma fire_watchdog_queue_eq (s : SessionState) :
    (fire_watchdog s).queue = s.queue := by
  unfold fire_watchdog
  split
  · rfl
  · split
    · dsimp only
      split
      · split <;> rfl
      · rfl
    · rfl

/-- skip_cmd never modifies the guild's queue (it only stops the transport
source; the queue is advanced later by the delivered finish callback). -/
lemma skip_cmd_queue_eq (s : SessionState) :
    (skip_cmd s).2.queue = s.queue := by
  unfold skip_cmd
  split
  · split <;> rfl
  · rfl

/-! ## C1: the current-iff-playing invariant -/

/-- The session state after starting T1 and then losing the transport
connection mid-track: `current = T1`, status Playing, so the claimed
invariant holds here. -/
def c1_state : SessionState :=
  run cfg0 SessionState.init [Op.play (inpOk t1), Op.transportDrop]

/-- C1 (counterexample): delivering the finish callback for the errored
track makes play_next take its disconnected-transport branch, which sets
is_playing to false but does not clear `current`: after this completed
operation the session is Idle (not playing, not paused) while `current`
is still T1, violating the claimed invariant, and in particular `current`
is not cleared to none when play_next finds the transport disconnected. -/
theorem c1_invariant_fails_after_disconnected_play_next :
    qInv c1_state.queue = true
    ∧ c1_state.queue.current.isSome = true
    ∧ (step cfg0 c1_state (Op.finishDelivered true)).queue.is_playing = false
    ∧ (step cfg0 c1_state (Op.finishDelivered true)).queue.is_paused = false
    ∧ (step cfg0 c1_state (Op.finishDelivered true)).queue.current
        = some { t1 with requester := some 42 }
    ∧ qInv (step cfg0 c1_state (Op.finishDelivered true)).queue = false := by
  decide

/-- C1 (amended claim): the invariant `current is non-null iff status is
Playing or Paused` is established by clear, by stop, by the disconnect
handler when a handle exists, and by play_next when the transport is
connected (popping a track with a successful start, or reaching an empty
queue with status not Paused); fire and skip preserve it, and pause and
resume preserve it while a current track exists; but when play_next finds
the transport absent or disconnected it leaves `current` unchanged while
forcing is_playing to false, and when playback startup fails it likewise
keeps `current` with is_playing false, so the invariant can be violated
there. -/
theorem c1_current_status_invariant_amended (cfg : BotConfig)
    (s : SessionState) (q : MusicQueue) (v : VoiceClient) (playOk : Bool) :
    qInv q.clear = true
    ∧ qInv (stop_cmd s).2.queue = true
    ∧ (s.voice_client.isSome = true → qInv (bot_disconnected s).queue = true)
    ∧ (qInv s.queue = true → qInv (fire_watchdog s).queue = true)
    ∧ (qInv s.queue = true → qInv (skip_cmd s).2.queue = true)
    ∧ (s.voice_client = some v → v.is_connected = true →
        s.queue.queue ≠ [] → playOk = true →
        qInv (play_next cfg s playOk).queue = true)
    ∧ (s.voice_client = some v → v.is_connected = true →
        s.queue.queue = [] → s.queue.is_paused = false →
        qInv (play_next cfg s playOk).queue = true)
    ∧ ((s.voice_client = none
          ∨ (s.voice_client = some v ∧ v.is_connected = false)) →
        (play_next cfg s playOk).queue.current = s.queue.current
        ∧ (play_next cfg s playOk).queue.is_playing = false)
    ∧ (s.queue.current.isSome = true → qInv s.queue = true →
        qInv (pause_cmd s).2.queue = true)
    ∧ (s.queue.current.isSome = true → s.queue.is_playing = true →
        qInv (resume_cmd s).2.queue = true) := by
  obtain ⟨⟨l, c, p, pa⟩, vc, slot, tasks, n⟩ := s
  refine ⟨?_, ?_, ?_, ?_, ?_, ?_, ?_, ?_, ?_, ?_⟩
  · rfl
  · cases vc <;> cases slot <;>
      simp [stop_cmd, cancel_inactivity_timer, MusicQueue.clear, qInv]
  · cases vc with
    | none => intro h; simp at h
    | some v => intro _; rfl
  · intro h
    rw [fire_watchdog_queue_eq]
    exact h
  · intro h
    rw [skip_cmd_queue_eq]
    exact h
  · intro h1 h2 h3 h4
    cases h1
    have h2c : v.connected = true := h2
    cases l with
    | nil => exact absurd rfl h3
    | cons song rest =>
        cases slot <;>
          simp [play_next, MusicQueue.next, h2, h2c, h4,
            reset_inactivity_timer, cancel_inactivity_timer, qInv]
  · intro h1 h2 h3 h4
    cases h1
    have h2c : v.connected = true := h2
    have h4p : pa = false := h4
    cases h3
    cases slot <;>
      simp [play_next, MusicQueue.next, h2, h2c, h4p,
        start_inactivity_timer, cancel_inactivity_timer, qInv]
  · intro h
    rcases h with h | ⟨h, hc⟩
    · cases h
      exact ⟨rfl, rfl⟩
    · cases h
      have hcc : v.connected = false := hc
      simp [play_next, hc, hcc]
  · intro h1 h2
    have h1c : c.isSome = true := h1
    cases vc with
    | none => exact h2
    | some v =>
        by_cases hp : v.is_playing = true
        · simp [pause_cmd, hp, qInv, h1c]
        · simp only [pause_cmd, hp, if_neg]
          simpa using h2
  · intro h1 h2
    have h1c : c.isSome = true := h1
    have h2p : p = true := h2
    cases vc with
    | none =>
        simp [resume_cmd, qInv, h1c, h2p]
    | some v =>
        by_cases hp : v.is_paused = true
        · simp [resume_cmd, hp, qInv, h1c, h2p]
        · simp [resume_cmd, hp, qInv, h1c, h2p]

/-- Witness for C1 (amended) at a state playing T1 with T2 pending. -/
def c1w_state : SessionState :=
  run cfg0 SessionState.init [Op.play (inpOk t1), Op.play (inpOk t2)]

theorem c1_current_status_invariant_amended_witness :
    qInv (stop_cmd c1w_state).2.queue = true
    ∧ qInv (play_next cfg0 c1w_state true).queue = true :=
  ⟨(c1_current_status_invariant_amended cfg0 c1w_state MusicQueue.init
      { connected := true, channel := 7, source_active := true, paused := false }
      true).2.1,
   (c1_current_status_invariant_amended cfg0 c1w_state MusicQueue.init
      { connected := true, channel := 7, source_active := true, paused := false }
      true).2.2.2.2.2.1 (by decide) (by decide) (by decide) rfl⟩

/-! ## C5: at most one pending watchdog per guild -/

lemma nodup_all_eq_length_le {l : List Nat} {i : Nat}
    (hall : ∀ x ∈ l, x = i) (hnd : l.Nodup) : l.length ≤ 1 := by
  match l with
  | [] => simp
  | [_] => simp
  | x :: y :: _ =>
      exfalso
      have hx := hall x (by simp)
      have hy := hall y (by simp)
      have hne : x ≠ y := by
        have hxy := (List.nodup_cons.mp hnd).1
        intro he
        exact hxy (he ▸ List.mem_cons_self y _)
      exact hne (hx.trans hy.symm)

lemma liveTasks_length_le_one {s : SessionState} (h : WatchdogInv s) :
    (liveTasks s).length ≤ 1 := by
  obtain ⟨h1, _, h3⟩ := h
  cases hslot : s.timerSlot with
  | none =>
      have hnil : liveTasks s = [] := by
        refine List.filter_eq_nil_iff.mpr ?_
        intro t ht hl
        have := h1 t ht (by simpa using hl)
        rw [hslot] at this
        exact absurd this (by simp)
      simp [hnil]
  | some i =>
      have hall : ∀ x ∈ (liveTasks s).map (fun t => t.tid), x = i := by
        intro x hx
        obtain ⟨t, ht, rfl⟩ := List.mem_map.mp hx
        have hmem := List.mem_filter.mp ht
        have := h1 t hmem.1 (by simpa using hmem.2)
        rw [hslot] at this
        exact (Option.some.inj this).symm
      have hsub : List.Sublist (liveTasks s) s.tasks :=
        List.filter_sublist s.tasks
      have hnd : ((liveTasks s).map (fun t => t.tid)).Nodup :=
        h3.sublist (hsub.map _)
      have := nodup_all_eq_length_le hall hnd
      simpa using this

lemma watchdogInv_of_timer_eq {s s' : SessionState} (h : WatchdogInv s)
    (hslot : s'.timerSlot = s.timerSlot) (htasks : s'.tasks = s.tasks)
    (hnext : s'.nextTid = s.nextTid) : WatchdogInv s' := by
  obtain ⟨h1, h2, h3⟩ := h
  refine ⟨?_, ?_, ?_⟩
  · intro t ht hl
    rw [hslot]
    exact h1 t (htasks ▸ ht) hl
  · intro t ht
    rw [hnext]
    exact h2 t (htasks ▸ ht)
  · rw [htasks]
    exact h3

lemma watchdogInv_cancel {s : SessionState} (h : WatchdogInv s) :
    WatchdogInv (cancel_inactivity_timer s) := by
  obtain ⟨h1, h2, h3⟩ := h
  unfold cancel_inactivity_timer
  rcases hslot : s.timerSlot with _ | i
  · exact ⟨h1, h2, h3⟩
  · dsimp only
    refine ⟨?_, ?_, ?_⟩
    · intro t ht hl
      obtain ⟨u, hu, rfl⟩ := List.mem_map.mp ht
      by_cases he : u.tid = i
      · simp [he] at hl
      · simp only [he, if_neg, ite_false] at hl
        have := h1 u hu hl
        rw [hslot] at this
        exact absurd (Option.some.inj this).symm he
    · intro t ht
      obtain ⟨u, hu, rfl⟩ := List.mem_map.mp ht
      by_cases he : u.tid = i
      · simp only [he, ite_true]
        exact he ▸ h2 u hu
      · simp only [he, ite_false]
        exact h2 u hu
    · have hmap :
          (List.map (fun t => t.tid)
            (s.tasks.map fun t =>
              if t.tid = i then { t with live := false } else t))
            = s.tasks.map (fun t => t.tid) := by
        rw [List.map_map]
        apply List.map_congr_left
        intro t _
        by_cases he : t.tid = i <;> simp [he]
      rw [hmap]
      exact h3

lemma liveTasks_cancel {s : SessionState} (h : WatchdogInv s) :
    liveTasks (cancel_inactivity_timer s) = [] := by
  obtain ⟨h1, _, _⟩ := h
  unfold liveTasks cancel_inactivity_timer
  rcases hslot : s.timerSlot with _ | i
  · refine List.filter_eq_nil_iff.mpr ?_
    intro t ht hl
    have := h1 t ht (by simpa using hl)
    rw [hslot] at this
    exact absurd this (by simp)
  · dsimp only
    refine List.filter_eq_nil_iff.mpr ?_
    intro t ht
    obtain ⟨u, hu, rfl⟩ := List.mem_map.mp ht
    by_cases he : u.tid = i
    · simp [he]
    · simp only [he, if_neg, ite_false]
      intro hl
      have := h1 u hu (by simpa using hl)
      rw [hslot] at this
      exact he (Option.some.inj this).symm

lemma watchdogInv_start {cfg : BotConfig} {s : SessionState}
    (h : WatchdogInv s) : WatchdogInv (start_inactivity_timer cfg s) := by
  have hc := watchdogInv_cancel h
  have hlv := liveTasks_cancel h
  obtain ⟨h1, h2, h3⟩ := hc
  unfold start_inactivity_timer
  dsimp only
  refine ⟨?_, ?_, ?_⟩
  · intro t ht hl
    rcases List.mem_append.mp ht with ht | ht
    · exfalso
      have hmem : t ∈ liveTasks (cancel_inactivity_timer s) :=
        List.mem_filter.mpr ⟨ht, by simpa using hl⟩
      rw [hlv] at hmem
      exact absurd hmem (List.not_mem_nil t)
    · have he : t = ⟨(cancel_inactivity_timer s).nextTid,
          timer_sleep_duration cfg, true⟩ := by simpa using ht
      rw [he]
  · intro t ht
    rcases List.mem_append.mp ht with ht | ht
    · exact Nat.lt_succ_of_lt (h2 t ht)
    · have he : t = ⟨(cancel_inactivity_timer s).nextTid,
          timer_sleep_duration cfg, true⟩ := by simpa using ht
      rw [he]
      exact Nat.lt_succ_self _
  · rw [List.map_append]
    refine List.Nodup.append h3 (List.nodup_singleton _) ?_
    intro a ha hb
    simp only [List.map_cons, List.map_nil, List.mem_singleton] at hb
    obtain ⟨u, hu, rfl⟩ := List.mem_map.mp ha
    exact absurd hb (Nat.ne_of_lt (h2 u hu))

lemma liveTasks_start {cfg : BotConfig} {s : SessionState}
    (h : WatchdogInv s) :
    liveTasks (start_inactivity_timer cfg s)
      = [⟨(cancel_inactivity_timer s).nextTid, timer_sleep_duration cfg,
          true⟩] := by
  have hlv := liveTasks_cancel h
  unfold liveTasks at hlv ⊢
  unfold start_inactivity_timer
  dsimp only
  rw [List.filter_append, hlv]
  rfl

lemma watchdogInv_fire {s : SessionState} (h : WatchdogInv s) :
    WatchdogInv (fire_watchdog s) := by
  obtain ⟨h1, h2, h3⟩ := h
  unfold fire_watchdog
  rcases hslot : s.timerSlot with _ | i
  · exact ⟨h1, h2, h3⟩
  · dsimp only
    split
    · have hW : ∀ vcl : Option VoiceClient,
          WatchdogInv
            { queue := s.queue, voice_client := vcl, timerSlot := some i,
              tasks := s.tasks.map fun t =>
                if t.tid = i then { t with live := false } else t,
              nextTid := s.nextTid } := by
        intro vcl
        refine ⟨?_, ?_, ?_⟩
        · intro t ht hl
          obtain ⟨u, hu, rfl⟩ := List.mem_map.mp ht
          by_cases he : u.tid = i
          · simp [he] at hl
          · simp only [he, if_neg, ite_false] at hl ⊢
            have := h1 u hu hl
            rw [hslot] at this
            exact this
        · intro t ht
          obtain ⟨u, hu, rfl⟩ := List.mem_map.mp ht
          by_cases he : u.tid = i
          · simp only [he, ite_true]
            exact he ▸ h2 u hu
          · simp only [he, ite_false]
            exact h2 u hu
        · have hmap :
              (List.map (fun t => t.tid)
                (s.tasks.map fun t =>
                  if t.tid = i then { t with live := false } else t))
                = s.tasks.map (fun t => t.tid) := by
            rw [List.map_map]
            apply List.map_congr_left
            intro t _
            by_cases he : t.tid = i <;> simp [he]
          rw [hmap]
          exact h3
      split
      · split
        · exact hW none
        · exact hW _
      · exact hW _
    · exact ⟨h1, h2, h3⟩

lemma watchdogInv_play_next {cfg : BotConfig} {s : SessionState}
    (h : WatchdogInv s) (playOk : Bool) :
    WatchdogInv (play_next cfg s playOk) := by
  unfold play_next
  split
  · exact watchdogInv_of_timer_eq h rfl rfl rfl
  · split
    · exact watchdogInv_of_timer_eq h rfl rfl rfl
    · split
      · dsimp only
        split
        · exact watchdogInv_cancel (watchdogInv_of_timer_eq h rfl rfl rfl)
        · exact watchdogInv_of_timer_eq h rfl rfl rfl
      · exact watchdogInv_start (watchdogInv_of_timer_eq h rfl rfl rfl)

lemma watchdogInv_resolve_enqueue {cfg : BotConfig} {s : SessionState}
    {inp : PlayInputs} {evs : List Event} (h : WatchdogInv s) :
    WatchdogInv (resolve_and_enqueue cfg s inp evs).2.1 := by
  unfold resolve_and_enqueue
  split
  · exact h
  · dsimp only
    split
    · show WatchdogInv (play_next cfg _ inp.playOk)
      apply watchdogInv_play_next
      exact watchdogInv_of_timer_eq h rfl rfl rfl
    · exact watchdogInv_of_timer_eq h rfl rfl rfl

lemma watchdogInv_connect_continue {cfg : BotConfig} {s : SessionState}
    {inp : PlayInputs} {evs0 : List Event} (h : WatchdogInv s) :
    WatchdogInv (connect_and_continue cfg s inp evs0).2.1 := by
  unfold connect_and_continue
  split
  · exact h
  · exact watchdogInv_resolve_enqueue (watchdogInv_of_timer_eq h rfl rfl rfl)

lemma watchdogInv_play_cmd {cfg : BotConfig} {s : SessionState}
    {inp : PlayInputs} (h : WatchdogInv s) :
    WatchdogInv (play_cmd cfg s inp).2.1 := by
  unfold play_cmd
  split
  · exact h
  · split
    · exact h
    · split
      · split
        · split
          · split
            · exact watchdogInv_resolve_enqueue
                (watchdogInv_of_timer_eq h rfl rfl rfl)
            · exact h
          · exact watchdogInv_resolve_enqueue h
        · exact watchdogInv_connect_continue
            (watchdogInv_of_timer_eq h rfl rfl rfl)
      · exact watchdogInv_connect_continue h

lemma watchdogInv_stop {s : SessionState} (h : WatchdogInv s) :
    WatchdogInv (stop_cmd s).2 := by
  obtain ⟨q, vc, slot, tasks, n⟩ := s
  cases vc with
  | none => exact watchdogInv_of_timer_eq h rfl rfl rfl
  | some v =>
      cases slot with
      | none => exact watchdogInv_of_timer_eq h rfl rfl rfl
      | some i =>
          have hin : WatchdogInv
              { queue := q, voice_client := none, timerSlot := some i,
                tasks := tasks, nextTid := n } :=
            watchdogInv_of_timer_eq h rfl rfl rfl
          have hc := watchdogInv_cancel hin
          exact watchdogInv_of_timer_eq hc rfl rfl rfl

lemma watchdogInv_step {cfg : BotConfig} {s : SessionState}
    (h : WatchdogInv s) (op : Op) : WatchdogInv (step cfg s op) := by
  cases op with
  | play inp => exact watchdogInv_play_cmd h
  | finishDelivered playOk => exact watchdogInv_play_next h playOk
  | pauseOp =>
      show WatchdogInv (pause_cmd s).2
      unfold pause_cmd
      split
      · split
        · exact watchdogInv_of_timer_eq h rfl rfl rfl
        · exact h
      · exact h
  | resumeOp =>
      show WatchdogInv (resume_cmd s).2
      unfold resume_cmd
      split
      · split
        · exact watchdogInv_of_timer_eq h rfl rfl rfl
        · exact h
      · exact h
  | skipOp =>
      show WatchdogInv (skip_cmd s).2
      unfold skip_cmd
      split
      · split
        · exact watchdogInv_of_timer_eq h rfl rfl rfl
        · exact h
      · exact h
  | stopOp => exact watchdogInv_stop h
  | fireWatchdog => exact watchdogInv_fire h
  | botDisconnected =>
      show WatchdogInv (bot_disconnected s)
      unfold bot_disconnected
      split
      · exact watchdogInv_of_timer_eq h rfl rfl rfl
      · exact h
  | transportDrop =>
      show WatchdogInv (transport_drop s)
      unfold transport_drop
      split
      · exact watchdogInv_of_timer_eq h rfl rfl rfl
      · exact h

lemma watchdogInv_run {cfg : BotConfig} (ops : List Op) {s : SessionState}
    (h : WatchdogInv s) : WatchdogInv (run cfg s ops) := by
  induction ops generalizing s with
  | nil => exact h
  | cons op rest ih => exact ih (watchdogInv_step h op)

/-- C5 (confirmed): every session reachable from a fresh session has at
most one pending inactivity watchdog; arming a watchdog always leaves
exactly one pending (the previous one is cancelled first); starting a new
track through play_next cancels the pending watchdog; and a firing
watchdog performs the disconnect teardown only when nothing is playing
and the queue is empty — otherwise the connection handle is untouched. -/
theorem c5_single_watchdog_invariant (cfg : BotConfig) (ops : List Op)
    (s : SessionState) (v : VoiceClient) (h : WatchdogInv s) :
    (liveTasks (run cfg SessionState.init ops)).length ≤ 1
    ∧ (liveTasks (start_inactivity_timer cfg s)).length = 1
    ∧ (s.voice_client = some v → v.is_connected = true →
        s.queue.queue ≠ [] → liveTasks (play_next cfg s true) = [])
    ∧ (s.queue.is_playing = true ∨ s.queue.queue ≠ [] →
        (fire_watchdog s).voice_client = s.voice_client) := by
  refine ⟨?_, ?_, ?_, ?_⟩
  · exact liveTasks_length_le_one (watchdogInv_run ops (by decide))
  · rw [liveTasks_start h]
    rfl
  · intro h1 h2 h3
    obtain ⟨⟨l, c, p, pa⟩, vc, slot, tasks, n⟩ := s
    cases h1
    obtain ⟨cn, ch, sa, pz⟩ := v
    have h2c : cn = true := h2
    subst h2c
    cases l with
    | nil => exact absurd rfl h3
    | cons song rest =>
        exact liveTasks_cancel (watchdogInv_of_timer_eq h rfl rfl rfl)
  · intro hcond
    obtain ⟨⟨l, c, p, pa⟩, vc, slot, tasks, n⟩ := s
    unfold fire_watchdog
    cases slot with
    | none => rfl
    | some i =>
        dsimp only
        split
        · cases vc with
          | none => rfl
          | some w =>
              rcases hcond with hp | hq
              · have hp2 : p = true := hp
                subst hp2
                simp
              · cases l with
                | nil => exact absurd rfl hq
                | cons song rest => simp
        · rfl

/-- Witness for C5 on the default configuration with one play operation. -/
theorem c5_single_watchdog_invariant_witness :
    (liveTasks (run cfg0 SessionState.init [Op.play (inpOk t1)])).length ≤ 1
    ∧ (liveTasks (start_inactivity_timer cfg0 SessionState.init)).length
        = 1 :=
  ⟨(c5_single_watchdog_invariant cfg0 [Op.play (inpOk t1)] SessionState.init
      { connected := true, channel := 7, source_active := false,
        paused := false } (by decide)).1,
   (c5_single_watchdog_invariant cfg0 [Op.play (inpOk t1)] SessionState.init
      { connected := true, channel := 7, source_active := false,
        paused := false } (by decide)).2.1⟩

end DiscordMusic
